import Mathlib

/-
Verification development for the rides-env LSSDP engine (instance
generation and incremental solution evaluation).  The definitions below
are a shallow embedding of src/rides_env/lssdp.py and
src/rides_env/solution.py.  Machine floats are modelled by rationals,
with a dedicated value type recording the IEEE non-numeric results where
the source can produce them.  External collaborators (the tram
assignment oracle, the numpy random generator, hashlib, and the Service
entity whose module is not among the given sources) are modelled from
the spec, as marked in their doc comments.
-/

/-- Value of a floating computation: a rational number, or the IEEE
non-numeric outcomes (nan and the infinities are conflated, since the
program only distinguishes numeric from non-numeric results in the
properties tracked here). -/
inductive RV where
| nan : RV
| num : ℚ → RV
deriving DecidableEq

/-- Addition with nan propagation, as in numpy sums. -/
def radd : RV → RV → RV
| RV.num a, RV.num b => RV.num (a + b)
| _, _ => RV.nan

/-- Minimum with nan propagation, as in numpy min. -/
def rmin : RV → RV → RV
| RV.num a, RV.num b => RV.num (min a b)
| _, _ => RV.nan

/-- Maximum with nan propagation, as in numpy max. -/
def rmax : RV → RV → RV
| RV.num a, RV.num b => RV.num (max a b)
| _, _ => RV.nan

/-- Sum of a collection, nan propagating as in numpy. -/
def listSum (l : List RV) : RV := l.foldl radd (RV.num 0)

/-- Minimum of a collection, nan propagating as in numpy. -/
def listMin (l : List RV) : RV :=
  match l with
  | [] => RV.nan
  | x :: xs => xs.foldl rmin x

/-- Maximum of a collection, nan propagating as in numpy. -/
def listMax (l : List RV) : RV :=
  match l with
  | [] => RV.nan
  | x :: xs => xs.foldl rmax x

/-- Arithmetic mean of a collection, nan propagating as in numpy. -/
def listMean (l : List RV) : RV :=
  match listSum l with
  | RV.nan => RV.nan
  | RV.num q => if l.length = 0 then RV.nan else RV.num (q / l.length)

/-- calculate_stats from lssdp.py on a one dimensional value collection:
the quadruple (min, mean, max, sum), where the sum is replaced by nan
when the sum flag is cleared. -/
def calculate_stats (l : List RV) (withsum : Bool) : RV × RV × RV × RV :=
  (listMin l, listMean l, listMax l, if withsum then listSum l else RV.nan)

/-- Entries of the strict upper triangle of an n by n matrix, row major,
as calculate_stats extracts them with triu_indices. -/
def upperTriList (n : ℕ) (f : ℕ → ℕ → ℚ) : List RV :=
  ((List.range n).map
    (fun i => ((List.range n).filter (fun j => decide (i < j))).map
      (fun j => RV.num (f i j)))).flatten

/-- calculate_stats from lssdp.py on a square matrix: only the strict
upper triangle is considered. -/
def calculate_stats_mat (n : ℕ) (f : ℕ → ℕ → ℚ) (withsum : Bool) : RV × RV × RV × RV :=
  calculate_stats (upperTriList n f) withsum

/-- Floating division as the stats code meets it: a nonzero divisor gives
the rational quotient, a zero divisor gives a non-numeric result (numpy
produces nan or an infinity there, both non-numeric). -/
def fdiv (a b : ℚ) : RV := if b = 0 then RV.nan else RV.num (a / b)

/-- Modelled from the spec: the Service entity lives in entities.py which
is not among the given sources.  Per the spec a Service holds an ordered
subset of stop indices of the line, with the two endpoints implicit, plus
a bus count; toggle flips membership of a stop in the set, add_bus
increments the count, and validity requires at least three stops and at
least one bus. -/
structure Service where
  nstops : ℕ
  toggled : Finset ℕ
  nbuses : ℕ
deriving DecidableEq

/-- Stop sequence of a Service: the toggled stops together with the two
implicit endpoints, in increasing order. -/
def Service.stops (s : Service) : List ℕ :=
  (List.range s.nstops).filter
    (fun k => decide (k = 0 ∨ k = s.nstops - 1 ∨ k ∈ s.toggled))

/-- Validity of a Service: at least three stops and at least one bus. -/
def Service.is_valid (s : Service) : Bool :=
  decide (3 ≤ s.stops.length ∧ 1 ≤ s.nbuses)

/-- toggle from the Service entity: flip membership of the stop. -/
def Service.toggle (s : Service) (stop : ℕ) : Service :=
  { s with toggled := if stop ∈ s.toggled then s.toggled.erase stop
                      else insert stop s.toggled }

/-- add_bus from the Service entity: increment the bus count. -/
def Service.add_bus (s : Service) : Service := { s with nbuses := s.nbuses + 1 }

/-- trip_time from lssdp.py: the sum of consecutive stop travel times
along a stop sequence. -/
def trip_time (travel_time : ℕ → ℕ → ℚ) (stops : List ℕ) : ℚ :=
  ((stops.zip stops.tail).map (fun p => travel_time p.1 p.2)).sum

/-- Output triple of the external tram assignment oracle: time to
destination matrix, flow vector, total cost. -/
structure AssignOut where
  ttd : ℕ → ℕ → ℚ
  flow : List ℚ
  cost : ℚ

/-- Signature of mat_linear_assign (uncongested oracle): alignments,
frequencies, travel time, demand. -/
def OracleU : Type :=
  List (List ℕ) → List ℚ → (ℕ → ℕ → ℚ) → (ℕ → ℕ → ℚ) → AssignOut

/-- Signature of mat_linear_congested_assign (congested oracle): the
uncongested arguments plus capacity and the iteration bound. -/
def OracleC : Type :=
  List (List ℕ) → List ℚ → (ℕ → ℕ → ℚ) → (ℕ → ℕ → ℚ) → ℚ → ℕ → AssignOut

/-- LSSDPInstance from lssdp.py.  Matrices are total functions whose
meaningful block is indexed below nstops. -/
structure LSSDPInstance where
  nstops : ℕ
  travel_time : ℕ → ℕ → ℚ
  demand : ℕ → ℕ → ℚ
  nbuses : ℤ
  capacity : ℚ
  congested : Bool
  base_ttd : ℕ → ℕ → ℚ
  base_flow : List ℚ
  base_obj : ℚ
  max_iters : ℕ

/-- ass_stops property: the full stop sequence of the line. -/
def LSSDPInstance.ass_stops (inst : LSSDPInstance) : List ℕ :=
  List.range inst.nstops

/-- ass_trip_time property: all stop baseline trip time. -/
def LSSDPInstance.ass_trip_time (inst : LSSDPInstance) : ℚ :=
  trip_time inst.travel_time inst.ass_stops

/-- Modelled from the spec: the Python builtin hash over a tuple of
floats, used by calculate_id to digest the flattened matrices; external
to the sources, modelled as a deterministic mixing fold. -/
def pyHashList (l : List ℚ) : ℕ :=
  l.foldl
    (fun a q =>
      (a * 1000003 + q.num.natAbs * 2 + (if q.num < 0 then 1 else 0) + 97 * q.den)
        % 2 ^ 61)
    7

/-- Modelled from the spec: the sha256 digest from hashlib, external to
the sources; modelled as a deterministic mixing fold producing a 256 bit
number. -/
def sha256mix (l : List ℕ) : ℕ :=
  l.foldl (fun a b => (a * 6364136223846793005 + b + 1442695040888963407) % 2 ^ 256) 0

/-- Lower case hexadecimal digit characters. -/
def hexChars : List Char := String.toList ("0123456789abcdef")

/-- The k-th hexadecimal digit character. -/
def hexChar (k : ℕ) : Char := hexChars.getD k (Char.ofNat 48)

/-- The 64 character hexadecimal digest string of a 256 bit number, most
significant digit first, as hexdigest renders it. -/
def hexdigest (h : ℕ) : List Char :=
  (List.range 64).map (fun i => hexChar (h / 16 ^ (63 - i) % 16))

/-- Row major flattening of the n by n block of a matrix. -/
def flattenMat (n : ℕ) (f : ℕ → ℕ → ℚ) : List ℚ :=
  ((List.range n).map (fun i => (List.range n).map (fun j => f i j))).flatten

/-- calculate_id from lssdp.py: sha256 over the hashes of the flattened
travel time and demand matrices, the bus count and the capacity; the
identifier is the first ten characters of the hex digest. -/
def calculate_id (inst : LSSDPInstance) : String :=
  String.mk ((hexdigest (sha256mix
    [pyHashList (flattenMat inst.nstops inst.travel_time),
     pyHashList (flattenMat inst.nstops inst.demand),
     inst.nbuses.natAbs * 2 + (if inst.nbuses < 0 then 1 else 0),
     pyHashList [inst.capacity]])).take 10)

/-- Modelled from the spec: the numpy random Generator, external to the
sources.  The integers field draws from a half open integer range; the
bundled bounds record the numpy contract for a nonempty range.  When the
range is empty (low at least high) numpy raises ValueError, which the
caller in from_network does not guard against. -/
structure RNG where
  integers : ℤ → ℤ → ℤ
  int_lb : ∀ lo hi : ℤ, lo < hi → lo ≤ integers lo hi
  int_ub : ∀ lo hi : ℤ, lo < hi → integers lo hi < hi

/-- Inputs of LSSDPInstance.from_network.  The distance matrix stands for
the route sampled from the external network collaborator; demandRaw
stands for the random noise plus gaussian peaks of the demand synthesis,
and demandScale for the final random scale factor, all draws of the
injected generator. -/
structure FromNetworkArgs where
  nstops : ℕ
  distance : ℕ → ℕ → ℚ
  min_headway : ℚ
  max_headway : ℚ
  speed : ℚ
  dwell_time : ℚ
  congested : Bool
  capacity : ℚ
  max_od_demand : ℚ
  max_iters : ℕ
  rng : RNG
  demandRaw : ℕ → ℕ → ℚ
  demandScale : ℚ

/-- Travel time matrix built by from_network: the strict upper triangle
of distance over speed (converted to minutes) plus the dwell time. -/
def fnTravelTime (a : FromNetworkArgs) : ℕ → ℕ → ℚ :=
  fun i j => if i < j then a.distance i j / a.speed / 1000 * 60 + a.dwell_time else 0

/-- The all stop baseline trip time seen inside from_network. -/
def fnAssTripTime (a : FromNetworkArgs) : ℚ :=
  trip_time (fnTravelTime a) (List.range a.nstops)

/-- Lower end of the bus count draw in from_network. -/
def fnLow (a : FromNetworkArgs) : ℤ := ⌈fnAssTripTime a / a.max_headway⌉

/-- One past the upper end of the bus count draw in from_network. -/
def fnHigh (a : FromNetworkArgs) : ℤ := ⌊fnAssTripTime a / a.min_headway⌋ + 1

/-- Demand matrix built by from_network: the strict upper triangle of the
raw random field, normalized by its maximum and scaled per row of origin
by the declining factor. -/
def fnDemand (a : FromNetworkArgs) : ℕ → ℕ → ℚ :=
  fun i j =>
    (if i < j then a.demandRaw i j else 0)
      / ((flattenMat a.nstops (fun i j => if i < j then a.demandRaw i j else 0)).foldl max 0)
      * (a.demandScale * a.capacity * a.max_od_demand / ((a.nstops : ℚ) + 1 - (i : ℚ)))

/-- The instance from_network builds on its success path, including the
single baseline oracle call that fills the base fields.  The constructed
instance keeps the constructor default iteration bound, since the source
does not forward its max_iters argument to the constructor. -/
def from_network_core (a : FromNetworkArgs) (oU : OracleU) (oC : OracleC) : LSSDPInstance :=
  let tt := fnTravelTime a
  let dem := fnDemand a
  let nb := a.rng.integers (fnLow a) (fnHigh a)
  let stops := List.range a.nstops
  let freq := [1 / fnAssTripTime a * (nb : ℚ)]
  let out := if a.congested then oC [stops] freq tt dem a.capacity a.max_iters
             else oU [stops] freq tt dem
  { nstops := a.nstops, travel_time := tt, demand := dem, nbuses := nb,
    capacity := a.capacity, congested := a.congested,
    base_ttd := out.ttd, base_flow := out.flow, base_obj := out.cost,
    max_iters := 10000 }

/-- from_network of lssdp.py as seen by a caller: on a nonempty integer
bus range the instance is built; on an empty range the unguarded numpy
draw raises ValueError. -/
def from_network (a : FromNetworkArgs) (oU : OracleU) (oC : OracleC) :
    Except String LSSDPInstance :=
  if fnLow a < fnHigh a then Except.ok (from_network_core a oU oC)
  else Except.error ("ValueError: low >= high")

/-- The all ones strict upper triangle matrix, as np.triu of a ones
matrix with offset one produces it. -/
def triu1 : ℕ → ℕ → ℚ := fun i j => if i < j then 1 else 0

/-- Summary statistics record returned by the stats property: entries
ttd, lf (load factor) and per_flow_exp, each a (min, mean, max, sum)
quadruple. -/
structure StatsOut where
  ttd : RV × RV × RV × RV
  lf : RV × RV × RV × RV
  per_flow_exp : RV × RV × RV × RV
deriving DecidableEq

/-- One external step of a Solution, as the caller drives it. -/
inductive Op where
| toggle : ℕ → Op
| add_bus : Op
| terminate : Op

namespace Lssdp

/-- LSSDPSolution state from lssdp.py. -/
structure LSSDPSolution where
  lss : Service
  prev_obj : ℚ
  obj : ℚ
  ttd : ℕ → ℕ → ℚ
  flow : List ℚ
  rel_ttd : ℕ → ℕ → ℚ

/-- Constructor of LSSDPSolution in lssdp.py: a fresh Service with one
bus, unit objectives, baseline ttd and flow, all ones relative ttd. -/
def init (inst : LSSDPInstance) : LSSDPSolution :=
  { lss := { nstops := inst.nstops, toggled := ∅, nbuses := 1 },
    prev_obj := 1, obj := 1, ttd := inst.base_ttd, flow := inst.base_flow,
    rel_ttd := triu1 }

/-- The oracle call of the Active recompute branch in lssdp.py: two
alignments (remaining all stop fleet, limited stop candidate) with their
frequencies, congested or uncongested per the instance flag. -/
def validOut (inst : LSSDPInstance) (oU : OracleU) (oC : OracleC) (svc : Service) :
    AssignOut :=
  let alignments := [inst.ass_stops, svc.stops]
  let frequencies :=
    [1 / inst.ass_trip_time * ((inst.nbuses - (svc.nbuses : ℤ) : ℤ) : ℚ),
     1 / trip_time inst.travel_time svc.stops * (svc.nbuses : ℚ)]
  if inst.congested then
    oC alignments frequencies inst.travel_time inst.demand inst.capacity inst.max_iters
  else
    oU alignments frequencies inst.travel_time inst.demand

/-- Relative ttd of lssdp.py: elementwise quotient by the baseline ttd,
zero where the baseline entry is zero. -/
def relOf (inst : LSSDPInstance) (ttd : ℕ → ℕ → ℚ) : ℕ → ℕ → ℚ :=
  fun i j => if inst.base_ttd i j ≠ 0 then ttd i j / inst.base_ttd i j else 0

/-- The recompute method of lssdp.py.  With an invalid Service the
objective resets to one, ttd reverts to the baseline, the relative ttd
resets to the all ones upper triangle and the flow field is left as it
was; with a valid Service all outputs come from the oracle call.  In
both branches prev_obj receives the objective held before the call. -/
def _calculate_objective (inst : LSSDPInstance) (oU : OracleU) (oC : OracleC)
    (s : LSSDPSolution) : LSSDPSolution :=
  if s.lss.is_valid then
    let out := validOut inst oU oC s.lss
    { lss := s.lss, prev_obj := s.obj, obj := out.cost / inst.base_obj,
      ttd := out.ttd, flow := out.flow, rel_ttd := relOf inst out.ttd }
  else
    { lss := s.lss, prev_obj := s.obj, obj := 1, ttd := inst.base_ttd,
      flow := s.flow, rel_ttd := triu1 }

/-- toggle of lssdp.py: flip the stop in the Service, then recompute. -/
def toggle (inst : LSSDPInstance) (oU : OracleU) (oC : OracleC)
    (s : LSSDPSolution) (stop : ℕ) : LSSDPSolution :=
  _calculate_objective inst oU oC { s with lss := s.lss.toggle stop }

/-- add_bus of lssdp.py: one more bus on the Service, then recompute. -/
def add_bus (inst : LSSDPInstance) (oU : OracleU) (oC : OracleC)
    (s : LSSDPSolution) : LSSDPSolution :=
  _calculate_objective inst oU oC { s with lss := s.lss.add_bus }

/-- terminate of lssdp.py: snapshot the objective into prev_obj. -/
def terminate (s : LSSDPSolution) : LSSDPSolution := { s with prev_obj := s.obj }

/-- The _capacities property of lssdp.py: bus counts scaled by the per
bus capacity, replicated per link section. -/
def _capacities (inst : LSSDPInstance) (s : LSSDPSolution) : List ℚ :=
  if s.lss.is_valid then
    List.replicate (3 * (inst.nstops - 1))
        (((inst.nbuses - (s.lss.nbuses : ℤ) : ℤ) : ℚ) * inst.capacity)
      ++ List.replicate (3 * (s.lss.stops.length - 1))
        ((s.lss.nbuses : ℚ) * inst.capacity)
  else
    List.replicate (3 * (inst.nstops - 1)) ((inst.nbuses : ℚ) * inst.capacity)

/-- The stats property of lssdp.py. -/
def stats (inst : LSSDPInstance) (s : LSSDPSolution) : StatsOut :=
  let per_flow_exp : RV :=
    if s.lss.is_valid then
      fdiv ((s.flow.drop (3 * (inst.nstops - 1))).sum) s.flow.sum
    else RV.num 0
  { ttd := calculate_stats_mat inst.nstops s.ttd true,
    lf := calculate_stats
      (if inst.congested then List.zipWith fdiv s.flow (_capacities inst s)
       else [RV.nan]) true,
    per_flow_exp := calculate_stats [per_flow_exp] true }

/-- One caller step on the lssdp.py Solution. -/
def step (inst : LSSDPInstance) (oU : OracleU) (oC : OracleC)
    (s : LSSDPSolution) (op : Op) : LSSDPSolution :=
  match op with
  | Op.toggle k => toggle inst oU oC s k
  | Op.add_bus => add_bus inst oU oC s
  | Op.terminate => terminate s

/-- A whole caller session on the lssdp.py Solution, from construction. -/
def run (inst : LSSDPInstance) (oU : OracleU) (oC : OracleC) (ops : List Op) :
    LSSDPSolution :=
  ops.foldl (step inst oU oC) (init inst)

end Lssdp

namespace Soln

/-
The second implementation, solution.py.  Its imports (.utils trip_time
and calculate_stats, .instance LSSDPInstance, .entities Service) are not
among the given sources; per the spec they are the same abstractions as
in lssdp.py, so the shared definitions above are reused.  The class body
is transcribed independently below; its only textual difference from
lssdp.py is the _capacities property.
-/

/-- LSSDPSolution state from solution.py. -/
structure LSSDPSolution where
  lss : Service
  prev_obj : ℚ
  obj : ℚ
  ttd : ℕ → ℕ → ℚ
  flow : List ℚ
  rel_ttd : ℕ → ℕ → ℚ

/-- Constructor of LSSDPSolution in solution.py. -/
def init (inst : LSSDPInstance) : LSSDPSolution :=
  { lss := { nstops := inst.nstops, toggled := ∅, nbuses := 1 },
    prev_obj := 1, obj := 1, ttd := inst.base_ttd, flow := inst.base_flow,
    rel_ttd := triu1 }

/-- The oracle call of the Active recompute branch in solution.py. -/
def validOut (inst : LSSDPInstance) (oU : OracleU) (oC : OracleC) (svc : Service) :
    AssignOut :=
  let alignments := [inst.ass_stops, svc.stops]
  let frequencies :=
    [1 / inst.ass_trip_time * ((inst.nbuses - (svc.nbuses : ℤ) : ℤ) : ℚ),
     1 / trip_time inst.travel_time svc.stops * (svc.nbuses : ℚ)]
  if inst.congested then
    oC alignments frequencies inst.travel_time inst.demand inst.capacity inst.max_iters
  else
    oU alignments frequencies inst.travel_time inst.demand

/-- Relative ttd of solution.py. -/
def relOf (inst : LSSDPInstance) (ttd : ℕ → ℕ → ℚ) : ℕ → ℕ → ℚ :=
  fun i j => if inst.base_ttd i j ≠ 0 then ttd i j / inst.base_ttd i j else 0

/-- The recompute method of solution.py. -/
def _calculate_objective (inst : LSSDPInstance) (oU : OracleU) (oC : OracleC)
    (s : LSSDPSolution) : LSSDPSolution :=
  if s.lss.is_valid then
    let out := validOut inst oU oC s.lss
    { lss := s.lss, prev_obj := s.obj, obj := out.cost / inst.base_obj,
      ttd := out.ttd, flow := out.flow, rel_ttd := relOf inst out.ttd }
  else
    { lss := s.lss, prev_obj := s.obj, obj := 1, ttd := inst.base_ttd,
      flow := s.flow, rel_ttd := triu1 }

/-- toggle of solution.py. -/
def toggle (inst : LSSDPInstance) (oU : OracleU) (oC : OracleC)
    (s : LSSDPSolution) (stop : ℕ) : LSSDPSolution :=
  _calculate_objective inst oU oC { s with lss := s.lss.toggle stop }

/-- add_bus of solution.py. -/
def add_bus (inst : LSSDPInstance) (oU : OracleU) (oC : OracleC)
    (s : LSSDPSolution) : LSSDPSolution :=
  _calculate_objective inst oU oC { s with lss := s.lss.add_bus }

/-- terminate of solution.py. -/
def terminate (s : LSSDPSolution) : LSSDPSolution := { s with prev_obj := s.obj }

/-- The _capacities property of solution.py: unlike lssdp.py, the bus
counts are divided by trip times before scaling by the capacity, and the
two trip times are paired the other way round. -/
def _capacities (inst : LSSDPInstance) (s : LSSDPSolution) : List ℚ :=
  if s.lss.is_valid then
    List.replicate (3 * (inst.nstops - 1))
        (((inst.nbuses - (s.lss.nbuses : ℤ) : ℤ) : ℚ)
          / trip_time inst.travel_time s.lss.stops * inst.capacity)
      ++ List.replicate (3 * (s.lss.stops.length - 1))
        ((s.lss.nbuses : ℚ) / inst.ass_trip_time * inst.capacity)
  else
    List.replicate (3 * (inst.nstops - 1))
      ((inst.nbuses : ℚ) / inst.ass_trip_time * inst.capacity)

/-- The stats property of solution.py. -/
def stats (inst : LSSDPInstance) (s : LSSDPSolution) : StatsOut :=
  let per_flow_exp : RV :=
    if s.lss.is_valid then
      fdiv ((s.flow.drop (3 * (inst.nstops - 1))).sum) s.flow.sum
    else RV.num 0
  { ttd := calculate_stats_mat inst.nstops s.ttd true,
    lf := calculate_stats
      (if inst.congested then List.zipWith fdiv s.flow (_capacities inst s)
       else [RV.nan]) true,
    per_flow_exp := calculate_stats [per_flow_exp] true }

/-- One caller step on the solution.py Solution. -/
def step (inst : LSSDPInstance) (oU : OracleU) (oC : OracleC)
    (s : LSSDPSolution) (op : Op) : LSSDPSolution :=
  match op with
  | Op.toggle k => toggle inst oU oC s k
  | Op.add_bus => add_bus inst oU oC s
  | Op.terminate => terminate s

/-- A whole caller session on the solution.py Solution. -/
def run (inst : LSSDPInstance) (oU : OracleU) (oC : OracleC) (ops : List Op) :
    LSSDPSolution :=
  ops.foldl (step inst oU oC) (init inst)

end Soln

/-- Field for field translation between the two Solution state types. -/
def convLS (s : Lssdp.LSSDPSolution) : Soln.LSSDPSolution :=
  { lss := s.lss, prev_obj := s.prev_obj, obj := s.obj, ttd := s.ttd,
    flow := s.flow, rel_ttd := s.rel_ttd }

/-- Consistency of a lssdp.py Solution state with its own recompute: the
observable fields hold exactly what the last recompute (or the
constructor) put there, given the Service currently held.  Every state
reachable through the public operations satisfies this. -/
def Sync (inst : LSSDPInstance) (oU : OracleU) (oC : OracleC)
    (s : Lssdp.LSSDPSolution) : Prop :=
  if s.lss.is_valid then
    s.obj = (Lssdp.validOut inst oU oC s.lss).cost / inst.base_obj ∧
    s.ttd = (Lssdp.validOut inst oU oC s.lss).ttd ∧
    s.flow = (Lssdp.validOut inst oU oC s.lss).flow ∧
    s.rel_ttd = Lssdp.relOf inst (Lssdp.validOut inst oU oC s.lss).ttd
  else
    s.obj = 1 ∧ s.ttd = inst.base_ttd ∧ s.rel_ttd = triu1

/-- A small three stop uncongested instance used to evaluate the
operations on concrete data. -/
def inst0 : LSSDPInstance :=
  { nstops := 3,
    travel_time := fun i j => if i < j then 1 else 0,
    demand := fun i j => if i < j then 1 else 0,
    nbuses := 2, capacity := 1, congested := false,
    base_ttd := fun i j => if i < j then 2 else 0,
    base_flow := [7], base_obj := 1, max_iters := 100 }

/-- A concrete deterministic uncongested oracle. -/
def oracleU0 : OracleU := fun _ _ _ _ => { ttd := fun _ _ => 0, flow := [5], cost := 1 / 2 }

/-- A concrete deterministic congested oracle. -/
def oracleC0 : OracleC := fun _ _ _ _ _ _ => { ttd := fun _ _ => 0, flow := [5], cost := 1 / 2 }

/-- A concrete deterministic uncongested oracle returning zero flow. -/
def oracleZ : OracleU := fun _ _ _ _ => { ttd := fun _ _ => 0, flow := [0], cost := 1 }

/-- A concrete generator model always drawing the low end of the range. -/
def rng0 : RNG :=
  { integers := fun lo _ => lo,
    int_lb := fun lo _ _ => le_refl lo,
    int_ub := fun _ _ h => h }

/-- Concrete synthesis inputs with a nonempty bus range: three stops one
kilometre apart at 60 kmh, no dwell time, headway window one to two
minutes around the two minute baseline trip. -/
def c2args : FromNetworkArgs :=
  { nstops := 3, distance := fun i j => if i < j then 1000 else 0,
    min_headway := 1, max_headway := 2, speed := 60, dwell_time := 0,
    congested := false, capacity := 50, max_od_demand := 1 / 40,
    max_iters := 10, rng := rng0, demandRaw := fun _ _ => 1, demandScale := 1 }

/-- Concrete synthesis inputs with an empty bus range: a ten minute
baseline trip with headway window 4.5 to 4.6 minutes, so the smallest
count meeting the maximum headway (3) exceeds the largest count meeting
the minimum headway (2). -/
def c3args : FromNetworkArgs :=
  { nstops := 2, distance := fun i j => if i < j then 10000 else 0,
    min_headway := 9 / 2, max_headway := 23 / 5, speed := 60, dwell_time := 0,
    congested := false, capacity := 50, max_od_demand := 1 / 40,
    max_iters := 10, rng := rng0, demandRaw := fun _ _ => 1, demandScale := 1 }

/-- An instance agreeing with inst0 on every fingerprinted field but
differing in the congestion flag. -/
def c8a : LSSDPInstance := { inst0 with congested := true }

/-- The lssdp.py Solution after one toggle of stop 1 from construction:
the Service becomes valid and the oracle outputs are installed. -/
def s1c : Lssdp.LSSDPSolution := Lssdp.toggle inst0 oracleU0 oracleC0 (Lssdp.init inst0) 1

/-- The lssdp.py Solution after toggling stop 1 twice from construction:
the Service is invalid again. -/
def s2c : Lssdp.LSSDPSolution := Lssdp.toggle inst0 oracleU0 oracleC0 s1c 1

/-- The lssdp.py Solution after one toggle of stop 1 from construction
under the zero flow oracle. -/
def s1z : Lssdp.LSSDPSolution := Lssdp.toggle inst0 oracleZ oracleC0 (Lssdp.init inst0) 1

/-
Theorems.  Helper lemmas come first; each claim of the specification is
then settled by one theorem (with a witness or counterexample where the
statement shape requires one).
-/

/-- Toggling the same stop twice leaves the Service unchanged. -/
theorem Service.toggle_toggle (s : Service) (stop : ℕ) :
    (s.toggle stop).toggle stop = s := by
  unfold Service.toggle
  by_cases h : stop ∈ s.toggled
  · simp only [h, if_pos, Finset.not_mem_erase, if_neg, not_false_iff]
    exact congrArg (fun t => { s with toggled := t }) (Finset.insert_erase h)
  · simp only [h, if_neg, not_false_iff, Finset.mem_insert_self, if_pos]
    exact congrArg (fun t => { s with toggled := t }) (Finset.erase_insert h)

/-- The recompute of lssdp.py written as an explicit conditional on the
validity of the Service. -/
theorem Lssdp.calcL_eq (inst : LSSDPInstance) (oU : OracleU) (oC : OracleC)
    (x : Lssdp.LSSDPSolution) :
    Lssdp._calculate_objective inst oU oC x =
      if x.lss.is_valid then
        { lss := x.lss, prev_obj := x.obj,
          obj := (Lssdp.validOut inst oU oC x.lss).cost / inst.base_obj,
          ttd := (Lssdp.validOut inst oU oC x.lss).ttd,
          flow := (Lssdp.validOut inst oU oC x.lss).flow,
          rel_ttd := Lssdp.relOf inst (Lssdp.validOut inst oU oC x.lss).ttd }
      else
        { lss := x.lss, prev_obj := x.obj, obj := 1, ttd := inst.base_ttd,
          flow := x.flow, rel_ttd := triu1 } := rfl

/-- C1.  The claim as stated is false: the Inactive recompute leaves the
flow field untouched rather than reverting it to the baseline.  After
toggling stop 1 twice on inst0, the Service is invalid but the flow still
holds the oracle output of the intermediate valid state, not base_flow. -/
theorem c1_counterexample :
    s2c.lss.is_valid = false ∧ s2c.flow ≠ inst0.base_flow := by decide

/-- C1 (amended).  When a toggle or add_bus leaves the Service invalid,
the recompute sets obj to 1, ttd to the baseline ttd, rel_ttd to the all
ones strict upper triangle, and leaves flow unchanged (so flow equals
base_flow only while no valid recompute has happened since construction). -/
theorem c1_invalid_recompute (inst : LSSDPInstance) (oU : OracleU) (oC : OracleC)
    (s : Lssdp.LSSDPSolution) (stop : ℕ) :
    ((s.lss.toggle stop).is_valid = false →
      (Lssdp.toggle inst oU oC s stop).obj = 1 ∧
      (Lssdp.toggle inst oU oC s stop).ttd = inst.base_ttd ∧
      (Lssdp.toggle inst oU oC s stop).rel_ttd = triu1 ∧
      (Lssdp.toggle inst oU oC s stop).flow = s.flow) ∧
    (s.lss.add_bus.is_valid = false →
      (Lssdp.add_bus inst oU oC s).obj = 1 ∧
      (Lssdp.add_bus inst oU oC s).ttd = inst.base_ttd ∧
      (Lssdp.add_bus inst oU oC s).rel_ttd = triu1 ∧
      (Lssdp.add_bus inst oU oC s).flow = s.flow) := by
  constructor
  · intro h
    unfold Lssdp.toggle
    rw [Lssdp.calcL_eq]
    simp [h]
  · intro h
    unfold Lssdp.add_bus
    rw [Lssdp.calcL_eq]
    simp [h]

/-- C1 witness: at the freshly constructed Solution over inst0, toggling
stop 0 and adding a bus both leave the Service invalid, and the amended
conclusions hold there. -/
theorem c1_witness :
    (((Lssdp.init inst0).lss.toggle 0).is_valid = false ∧
      (Lssdp.init inst0).lss.add_bus.is_valid = false) ∧
    ((Lssdp.toggle inst0 oracleU0 oracleC0 (Lssdp.init inst0) 0).obj = 1 ∧
      (Lssdp.toggle inst0 oracleU0 oracleC0 (Lssdp.init inst0) 0).ttd = inst0.base_ttd ∧
      (Lssdp.toggle inst0 oracleU0 oracleC0 (Lssdp.init inst0) 0).rel_ttd = triu1 ∧
      (Lssdp.toggle inst0 oracleU0 oracleC0 (Lssdp.init inst0) 0).flow = (Lssdp.init inst0).flow) ∧
    ((Lssdp.add_bus inst0 oracleU0 oracleC0 (Lssdp.init inst0)).obj = 1 ∧
      (Lssdp.add_bus inst0 oracleU0 oracleC0 (Lssdp.init inst0)).ttd = inst0.base_ttd ∧
      (Lssdp.add_bus inst0 oracleU0 oracleC0 (Lssdp.init inst0)).rel_ttd = triu1 ∧
      (Lssdp.add_bus inst0 oracleU0 oracleC0 (Lssdp.init inst0)).flow = (Lssdp.init inst0).flow) :=
  ⟨⟨by decide, by decide⟩,
    (c1_invalid_recompute inst0 oracleU0 oracleC0 (Lssdp.init inst0) 0).1 (by decide),
    (c1_invalid_recompute inst0 oracleU0 oracleC0 (Lssdp.init inst0) 0).2 (by decide)⟩

/-- C4.  The claim as stated is false: a toggle writes prev_obj.  After
one toggle on inst0 the objective is one half; a further toggle copies
it into prev_obj, which before held one. -/
theorem c4_counterexample :
    (Lssdp.toggle inst0 oracleU0 oracleC0 s1c 1).prev_obj ≠ s1c.prev_obj := by
  have hv : ((Lssdp.init inst0).lss.toggle 1).is_valid = true := by decide
  have h1 : (Lssdp.toggle inst0 oracleU0 oracleC0 s1c 1).prev_obj = s1c.obj := by
    unfold Lssdp.toggle
    rw [Lssdp.calcL_eq]
    split <;> rfl
  have h2 : s1c.obj = 1 / 2 := by
    show (Lssdp.toggle inst0 oracleU0 oracleC0 (Lssdp.init inst0) 1).obj = 1 / 2
    unfold Lssdp.toggle
    rw [Lssdp.calcL_eq]
    simp only [hv, eq_self_iff_true, if_true]
    show (Lssdp.validOut inst0 oracleU0 oracleC0
      ((Lssdp.init inst0).lss.toggle 1)).cost / inst0.base_obj = 1 / 2
    simp only [Lssdp.validOut]
    rw [if_neg (by decide : ¬ (inst0.congested = true))]
    show (1 : ℚ) / 2 / 1 = 1 / 2
    norm_num
  have h3 : s1c.prev_obj = 1 := by
    show (Lssdp.toggle inst0 oracleU0 oracleC0 (Lssdp.init inst0) 1).prev_obj = 1
    unfold Lssdp.toggle
    rw [Lssdp.calcL_eq]
    split <;> rfl
  rw [h1, h2, h3]
  norm_num

/-- C4 (amended).  prev_obj is written not only by terminate: every
toggle and add_bus recompute also sets prev_obj to the objective value
held before the mutation. -/
theorem c4_prev_obj_writers (inst : LSSDPInstance) (oU : OracleU) (oC : OracleC)
    (s : Lssdp.LSSDPSolution) (stop : ℕ) :
    (Lssdp.toggle inst oU oC s stop).prev_obj = s.obj ∧
    (Lssdp.add_bus inst oU oC s).prev_obj = s.obj ∧
    (Lssdp.terminate s).prev_obj = s.obj := by
  refine ⟨?_, ?_, rfl⟩
  · unfold Lssdp.toggle
    rw [Lssdp.calcL_eq]
    split <;> rfl
  · unfold Lssdp.add_bus
    rw [Lssdp.calcL_eq]
    split <;> rfl

/-- C7.  Immediately after construction both implementations hold unit
objective, and the relative ttd is one strictly above the diagonal and
zero elsewhere. -/
theorem c7_init_invariant (inst : LSSDPInstance) :
    (Lssdp.init inst).obj = 1 ∧ (Soln.init inst).obj = 1 ∧
    (∀ i j : ℕ, i < j → (Lssdp.init inst).rel_ttd i j = 1) ∧
    (∀ i j : ℕ, ¬ i < j → (Lssdp.init inst).rel_ttd i j = 0) ∧
    (∀ i j : ℕ, i < j → (Soln.init inst).rel_ttd i j = 1) ∧
    (∀ i j : ℕ, ¬ i < j → (Soln.init inst).rel_ttd i j = 0) := by
  refine ⟨rfl, rfl, ?_, ?_, ?_, ?_⟩ <;>
    · intro i j h
      simp [Lssdp.init, Soln.init, triu1, h]

/-- C10.  terminate is a pure snapshot in both implementations: it copies
obj into prev_obj and changes nothing else, so two consecutive calls both
leave prev_obj equal to obj. -/
theorem c10_terminate_snapshot :
    (∀ s : Lssdp.LSSDPSolution,
      (Lssdp.terminate s).prev_obj = s.obj ∧
      (Lssdp.terminate s).obj = s.obj ∧
      (Lssdp.terminate s).ttd = s.ttd ∧
      (Lssdp.terminate s).flow = s.flow ∧
      (Lssdp.terminate s).rel_ttd = s.rel_ttd ∧
      (Lssdp.terminate s).lss = s.lss ∧
      (Lssdp.terminate s).prev_obj = (Lssdp.terminate s).obj ∧
      (Lssdp.terminate (Lssdp.terminate s)).prev_obj =
        (Lssdp.terminate (Lssdp.terminate s)).obj) ∧
    (∀ s : Soln.LSSDPSolution,
      (Soln.terminate s).prev_obj = s.obj ∧
      (Soln.terminate s).obj = s.obj ∧
      (Soln.terminate s).ttd = s.ttd ∧
      (Soln.terminate s).flow = s.flow ∧
      (Soln.terminate s).rel_ttd = s.rel_ttd ∧
      (Soln.terminate s).lss = s.lss ∧
      (Soln.terminate s).prev_obj = (Soln.terminate s).obj ∧
      (Soln.terminate (Soln.terminate s)).prev_obj =
        (Soln.terminate (Soln.terminate s)).obj) :=
  ⟨fun _ => ⟨rfl, rfl, rfl, rfl, rfl, rfl, rfl, rfl⟩,
   fun _ => ⟨rfl, rfl, rfl, rfl, rfl, rfl, rfl, rfl⟩⟩

/-- The toggle operation of lssdp.py written as an explicit conditional
on the validity of the toggled Service. -/
theorem Lssdp.toggle_eq (inst : LSSDPInstance) (oU : OracleU) (oC : OracleC)
    (x : Lssdp.LSSDPSolution) (stop : ℕ) :
    Lssdp.toggle inst oU oC x stop =
      if (x.lss.toggle stop).is_valid then
        { lss := x.lss.toggle stop, prev_obj := x.obj,
          obj := (Lssdp.validOut inst oU oC (x.lss.toggle stop)).cost / inst.base_obj,
          ttd := (Lssdp.validOut inst oU oC (x.lss.toggle stop)).ttd,
          flow := (Lssdp.validOut inst oU oC (x.lss.toggle stop)).flow,
          rel_ttd := Lssdp.relOf inst (Lssdp.validOut inst oU oC (x.lss.toggle stop)).ttd }
      else
        { lss := x.lss.toggle stop, prev_obj := x.obj, obj := 1, ttd := inst.base_ttd,
          flow := x.flow, rel_ttd := triu1 } := rfl

/-- After a toggle the Solution holds the toggled Service. -/
theorem Lssdp.toggle_lss (inst : LSSDPInstance) (oU : OracleU) (oC : OracleC)
    (x : Lssdp.LSSDPSolution) (stop : ℕ) :
    (Lssdp.toggle inst oU oC x stop).lss = x.lss.toggle stop := by
  rw [Lssdp.toggle_eq]
  split <;> rfl

/-- C5.  The claim as stated is false for the flow field: from the
freshly constructed (invalid) Solution over inst0, toggling stop 1 makes
the Service valid and installs the oracle flow, and toggling it again
restores the Service but keeps that flow rather than the pre toggle
baseline flow. -/
theorem c5_counterexample :
    s2c.lss = (Lssdp.init inst0).lss ∧ s2c.flow ≠ (Lssdp.init inst0).flow := by decide

/-- C5 (amended).  On any state consistent with its own recompute (as all
reachable states are), toggling the same stop twice in a row restores the
Service together with the objective, ttd and relative ttd; the flow field
is only guaranteed to return when the excursion does not pass from an
invalid pre state through a valid intermediate state. -/
theorem c5_toggle_twice (inst : LSSDPInstance) (oU : OracleU) (oC : OracleC)
    (s : Lssdp.LSSDPSolution) (stop : ℕ) (h : Sync inst oU oC s) :
    (Lssdp.toggle inst oU oC (Lssdp.toggle inst oU oC s stop) stop).lss = s.lss ∧
    (Lssdp.toggle inst oU oC (Lssdp.toggle inst oU oC s stop) stop).obj = s.obj ∧
    (Lssdp.toggle inst oU oC (Lssdp.toggle inst oU oC s stop) stop).ttd = s.ttd ∧
    (Lssdp.toggle inst oU oC (Lssdp.toggle inst oU oC s stop) stop).rel_ttd = s.rel_ttd := by
  rw [Lssdp.toggle_eq inst oU oC (Lssdp.toggle inst oU oC s stop) stop]
  rw [show (Lssdp.toggle inst oU oC s stop).lss.toggle stop = s.lss from by
    rw [Lssdp.toggle_lss]; exact Service.toggle_toggle s.lss stop]
  unfold Sync at h
  cases hv : s.lss.is_valid with
  | true =>
    rw [if_pos hv] at h
    rw [if_pos rfl]
    obtain ⟨ho, ht, _, hr⟩ := h
    exact ⟨rfl, ho.symm, ht.symm, hr.symm⟩
  | false =>
    have hv' : ¬ (s.lss.is_valid = true) := by simp [hv]
    rw [if_neg hv'] at h
    rw [if_neg (show ¬ (false = true) by decide)]
    obtain ⟨ho, ht, hr⟩ := h
    exact ⟨rfl, ho.symm, ht.symm, hr.symm⟩

/-- C5 witness: the freshly constructed Solution over inst0 is consistent
with its own recompute, and the amended conclusions hold there for
stop 1. -/
theorem c5_witness :
    Sync inst0 oracleU0 oracleC0 (Lssdp.init inst0) ∧
    ((Lssdp.toggle inst0 oracleU0 oracleC0
        (Lssdp.toggle inst0 oracleU0 oracleC0 (Lssdp.init inst0) 1) 1).lss =
        (Lssdp.init inst0).lss ∧
      (Lssdp.toggle inst0 oracleU0 oracleC0
        (Lssdp.toggle inst0 oracleU0 oracleC0 (Lssdp.init inst0) 1) 1).obj =
        (Lssdp.init inst0).obj ∧
      (Lssdp.toggle inst0 oracleU0 oracleC0
        (Lssdp.toggle inst0 oracleU0 oracleC0 (Lssdp.init inst0) 1) 1).ttd =
        (Lssdp.init inst0).ttd ∧
      (Lssdp.toggle inst0 oracleU0 oracleC0
        (Lssdp.toggle inst0 oracleU0 oracleC0 (Lssdp.init inst0) 1) 1).rel_ttd =
        (Lssdp.init inst0).rel_ttd) := by
  have hs : Sync inst0 oracleU0 oracleC0 (Lssdp.init inst0) := by
    unfold Sync
    rw [if_neg (by decide : ¬ ((Lssdp.init inst0).lss.is_valid = true))]
    exact ⟨rfl, rfl, rfl⟩
  exact ⟨hs, c5_toggle_twice inst0 oracleU0 oracleC0 (Lssdp.init inst0) 1 hs⟩

/-- The recompute of solution.py written as an explicit conditional on
the validity of the Service. -/
theorem Soln.calcS_eq (inst : LSSDPInstance) (oU : OracleU) (oC : OracleC)
    (x : Soln.LSSDPSolution) :
    Soln._calculate_objective inst oU oC x =
      if x.lss.is_valid then
        { lss := x.lss, prev_obj := x.obj,
          obj := (Soln.validOut inst oU oC x.lss).cost / inst.base_obj,
          ttd := (Soln.validOut inst oU oC x.lss).ttd,
          flow := (Soln.validOut inst oU oC x.lss).flow,
          rel_ttd := Soln.relOf inst (Soln.validOut inst oU oC x.lss).ttd }
      else
        { lss := x.lss, prev_obj := x.obj, obj := 1, ttd := inst.base_ttd,
          flow := x.flow, rel_ttd := triu1 } := rfl

/-- The two recompute methods agree field for field. -/
theorem conv_calc (inst : LSSDPInstance) (oU : OracleU) (oC : OracleC)
    (s : Lssdp.LSSDPSolution) :
    convLS (Lssdp._calculate_objective inst oU oC s) =
      Soln._calculate_objective inst oU oC (convLS s) := by
  rw [Lssdp.calcL_eq, Soln.calcS_eq]
  cases hv : s.lss.is_valid with
  | true =>
    rw [if_pos rfl, if_pos (show (convLS s).lss.is_valid = true from hv)]
    rfl
  | false =>
    rw [if_neg (show ¬ (false = true) by decide),
        if_neg (show ¬ ((convLS s).lss.is_valid = true) from by simp [convLS, hv])]
    rfl

/-- The two implementations take identical steps. -/
theorem conv_step (inst : LSSDPInstance) (oU : OracleU) (oC : OracleC)
    (s : Lssdp.LSSDPSolution) (op : Op) :
    convLS (Lssdp.step inst oU oC s op) = Soln.step inst oU oC (convLS s) op := by
  cases op with
  | toggle k => exact conv_calc inst oU oC { s with lss := s.lss.toggle k }
  | add_bus => exact conv_calc inst oU oC { s with lss := s.lss.add_bus }
  | terminate => rfl

/-- Folding the two step functions from related states keeps them
related. -/
theorem conv_foldl (inst : LSSDPInstance) (oU : OracleU) (oC : OracleC)
    (ops : List Op) (s : Lssdp.LSSDPSolution) :
    convLS (ops.foldl (Lssdp.step inst oU oC) s) =
      ops.foldl (Soln.step inst oU oC) (convLS s) := by
  induction ops generalizing s with
  | nil => rfl
  | cons op rest ih =>
    simp only [List.foldl_cons]
    rw [← conv_step]
    exact ih (Lssdp.step inst oU oC s op)

/-- C6.  The claim as stated is false: the two _capacities properties
disagree already on the freshly constructed Solution over inst0 (lssdp.py
multiplies bus counts by the capacity, solution.py also divides by a trip
time), so congested load factor statistics differ between the files. -/
theorem c6_counterexample :
    Lssdp._capacities inst0 (Lssdp.init inst0) ≠
      Soln._capacities inst0 (Soln.init inst0) := by
  have hvL : (Lssdp.init inst0).lss.is_valid = false := by decide
  have hvS : (Soln.init inst0).lss.is_valid = false := by decide
  have hL : Lssdp._capacities inst0 (Lssdp.init inst0) = List.replicate 6 (2 : ℚ) := by
    unfold Lssdp._capacities
    rw [if_neg (by simp [hvL])]
    norm_num [inst0]
  have hS : Soln._capacities inst0 (Soln.init inst0) = List.replicate 6 (1 : ℚ) := by
    have ha : inst0.ass_trip_time = 2 := by
      unfold LSSDPInstance.ass_trip_time LSSDPInstance.ass_stops
      rw [show List.range inst0.nstops = [0, 1, 2] from by decide]
      norm_num [trip_time, inst0]
    unfold Soln._capacities
    rw [if_neg (by simp [hvS])]
    rw [ha]
    norm_num [inst0]
  rw [hL, hS]
  decide

/-- C6 (amended).  The two LSSDPSolution implementations evolve their
whole mutable state (Service, prev_obj, obj, ttd, flow, rel_ttd)
identically under every sequence of toggle, add_bus and terminate
operations and any oracles; they are not equivalent on the _capacities
arrays, hence not on congested load factor statistics. -/
theorem c6_state_equiv (inst : LSSDPInstance) (oU : OracleU) (oC : OracleC)
    (ops : List Op) :
    convLS (Lssdp.run inst oU oC ops) = Soln.run inst oU oC ops := by
  unfold Lssdp.run Soln.run
  rw [conv_foldl]
  rfl

/-- C2.  Whenever from_network returns an instance, its travel time and
demand matrices are zero on and below the diagonal, and its bus count
lies between the ceiling of trip time over maximum headway and the floor
of trip time over minimum headway, inclusive. -/
theorem c2_from_network (a : FromNetworkArgs) (oU : OracleU) (oC : OracleC)
    (h : fnLow a < fnHigh a) :
    from_network a oU oC = Except.ok (from_network_core a oU oC) ∧
    (∀ i j : ℕ, ¬ i < j → (from_network_core a oU oC).travel_time i j = 0) ∧
    (∀ i j : ℕ, ¬ i < j → (from_network_core a oU oC).demand i j = 0) ∧
    ⌈(from_network_core a oU oC).ass_trip_time / a.max_headway⌉ ≤
      (from_network_core a oU oC).nbuses ∧
    (from_network_core a oU oC).nbuses ≤
      ⌊(from_network_core a oU oC).ass_trip_time / a.min_headway⌋ := by
  refine ⟨?_, ?_, ?_, ?_, ?_⟩
  · unfold from_network
    rw [if_pos h]
  · intro i j hij
    show fnTravelTime a i j = 0
    unfold fnTravelTime
    rw [if_neg hij]
  · intro i j hij
    show fnDemand a i j = 0
    unfold fnDemand
    rw [if_neg hij]
    simp
  · show fnLow a ≤ a.rng.integers (fnLow a) (fnHigh a)
    exact a.rng.int_lb _ _ h
  · have hub : a.rng.integers (fnLow a) (fnHigh a) < fnHigh a := a.rng.int_ub _ _ h
    exact Int.lt_add_one_iff.mp hub

/-- C2 witness: on the concrete inputs c2args the bus range is the
nonempty interval from 1 to 2, and the returned instance satisfies the
claim. -/
theorem c2_witness :
    fnLow c2args < fnHigh c2args ∧
    (from_network c2args oracleU0 oracleC0 =
        Except.ok (from_network_core c2args oracleU0 oracleC0) ∧
      (∀ i j : ℕ, ¬ i < j →
        (from_network_core c2args oracleU0 oracleC0).travel_time i j = 0) ∧
      (∀ i j : ℕ, ¬ i < j →
        (from_network_core c2args oracleU0 oracleC0).demand i j = 0) ∧
      ⌈(from_network_core c2args oracleU0 oracleC0).ass_trip_time / c2args.max_headway⌉ ≤
        (from_network_core c2args oracleU0 oracleC0).nbuses ∧
      (from_network_core c2args oracleU0 oracleC0).nbuses ≤
        ⌊(from_network_core c2args oracleU0 oracleC0).ass_trip_time / c2args.min_headway⌋) := by
  have ha : fnAssTripTime c2args = 2 := by
    unfold fnAssTripTime
    rw [show List.range c2args.nstops = [0, 1, 2] from by decide]
    norm_num [trip_time, fnTravelTime, c2args]
  have hlow : fnLow c2args = 1 := by
    unfold fnLow
    rw [ha]
    norm_num [c2args]
  have hhigh : fnHigh c2args = 3 := by
    unfold fnHigh
    rw [ha]
    norm_num [c2args]
  have h : fnLow c2args < fnHigh c2args := by
    rw [hlow, hhigh]
    decide
  exact ⟨h, c2_from_network c2args oracleU0 oracleC0 h⟩

/-- C3.  On inputs whose headway window admits no integer bus count
(baseline trip of 10 minutes, window 4.5 to 4.6 minutes) the range is
empty and from_network fails with the unguarded numpy ValueError, not
with any InvalidHeadwayRange condition: no such guard exists in the
code. -/
theorem c3_empty_range_error :
    fnHigh c3args ≤ fnLow c3args ∧
    from_network c3args oracleU0 oracleC0 =
      Except.error ("ValueError: low >= high") := by
  have ha : fnAssTripTime c3args = 10 := by
    unfold fnAssTripTime
    rw [show List.range c3args.nstops = [0, 1] from by decide]
    norm_num [trip_time, fnTravelTime, c3args]
  have hlow : fnLow c3args = 3 := by
    unfold fnLow
    rw [ha]
    show ⌈(10 : ℚ) / c3args.max_headway⌉ = 3
    rw [show c3args.max_headway = 23 / 5 from rfl]
    rw [show (10 : ℚ) / (23 / 5) = 50 / 23 by norm_num]
    norm_num [Int.ceil_eq_iff]
  have hhigh : fnHigh c3args = 3 := by
    unfold fnHigh
    rw [ha]
    show ⌊(10 : ℚ) / c3args.min_headway⌋ + 1 = 3
    rw [show c3args.min_headway = 9 / 2 from rfl]
    rw [show (10 : ℚ) / (9 / 2) = 20 / 9 by norm_num]
    norm_num [Int.floor_eq_iff]
  refine ⟨by rw [hlow, hhigh], ?_⟩
  unfold from_network
  rw [if_neg (by rw [hlow, hhigh]; decide)]

/-- Flattening is determined by the matrix entries inside the block. -/
theorem flattenMat_congr (n : ℕ) (f g : ℕ → ℕ → ℚ)
    (h : ∀ i, i < n → ∀ j, j < n → f i j = g i j) :
    flattenMat n f = flattenMat n g := by
  unfold flattenMat
  congr 1
  apply List.map_congr_left
  intro i hi
  apply List.map_congr_left
  intro j hj
  exact h i (List.mem_range.mp hi) j (List.mem_range.mp hj)

/-- C8.  calculate_id is a deterministic function of the travel time
matrix, the demand matrix, the bus count and the capacity, and the
identifier is a string of exactly ten hexadecimal characters. -/
theorem c8_id_deterministic (i1 i2 : LSSDPInstance)
    (hn : i1.nstops = i2.nstops)
    (ht : ∀ a, a < i1.nstops → ∀ b, b < i1.nstops → i1.travel_time a b = i2.travel_time a b)
    (hd : ∀ a, a < i1.nstops → ∀ b, b < i1.nstops → i1.demand a b = i2.demand a b)
    (hb : i1.nbuses = i2.nbuses) (hc : i1.capacity = i2.capacity) :
    calculate_id i1 = calculate_id i2 ∧
    (calculate_id i1).length = 10 ∧
    (∀ c ∈ (calculate_id i1).toList, c ∈ hexChars) := by
  refine ⟨?_, ?_, ?_⟩
  · have h1 : flattenMat i1.nstops i1.travel_time = flattenMat i2.nstops i2.travel_time := by
      rw [← hn]
      exact flattenMat_congr i1.nstops _ _ ht
    have h2 : flattenMat i1.nstops i1.demand = flattenMat i2.nstops i2.demand := by
      rw [← hn]
      exact flattenMat_congr i1.nstops _ _ hd
    unfold calculate_id
    rw [h1, h2, hb, hc]
  · show (String.mk ((hexdigest _).take 10)).length = 10
    simp [String.length, hexdigest]
  · intro c hc'
    have hmem : c ∈ (hexdigest (sha256mix
        [pyHashList (flattenMat i1.nstops i1.travel_time),
         pyHashList (flattenMat i1.nstops i1.demand),
         i1.nbuses.natAbs * 2 + (if i1.nbuses < 0 then 1 else 0),
         pyHashList [i1.capacity]])).take 10 := hc'
    have hmem2 := List.take_subset _ _ hmem
    obtain ⟨i, _, rfl⟩ := List.mem_map.mp hmem2
    exact (by decide : ∀ m, m < 16 → hexChar m ∈ hexChars) _
      (Nat.mod_lt _ (by norm_num))

/-- C8 witness: c8a and inst0 agree on the four fingerprinted inputs
while differing in the congestion flag, and they receive the same ten
character hexadecimal identifier. -/
theorem c8_witness :
    (c8a.nstops = inst0.nstops ∧ c8a.nbuses = inst0.nbuses ∧
      c8a.capacity = inst0.capacity ∧ c8a.congested ≠ inst0.congested) ∧
    (calculate_id c8a = calculate_id inst0 ∧
      (calculate_id c8a).length = 10 ∧
      (∀ c ∈ (calculate_id c8a).toList, c ∈ hexChars)) :=
  ⟨⟨rfl, rfl, rfl, by decide⟩,
    c8_id_deterministic c8a inst0 rfl (fun _ _ _ _ => rfl) (fun _ _ _ _ => rfl) rfl rfl⟩

/-- The lf entry of stats, written without the record syntax. -/
theorem Lssdp.stats_lf (inst : LSSDPInstance) (s : Lssdp.LSSDPSolution) :
    (Lssdp.stats inst s).lf =
      calculate_stats
        (if inst.congested then List.zipWith fdiv s.flow (Lssdp._capacities inst s)
         else [RV.nan]) true := rfl

/-- The per_flow_exp entry of stats, written without the record syntax. -/
theorem Lssdp.stats_pfe (inst : LSSDPInstance) (s : Lssdp.LSSDPSolution) :
    (Lssdp.stats inst s).per_flow_exp =
      calculate_stats
        [if s.lss.is_valid then
            fdiv ((s.flow.drop (3 * (inst.nstops - 1))).sum) s.flow.sum
         else RV.num 0] true := rfl

/-- C9.  The claim as stated is false in one corner: over an uncongested
instance the load factor entry is indeed nan in all four components, and
per_flow_exp is the zero statistic on an invalid Service, but on a valid
Service whose oracle flow sums to zero the division 0/0 makes
per_flow_exp nan rather than a defined number.  Under the zero flow
oracle, one toggle from construction reaches such a state. -/
theorem c9_counterexample :
    inst0.congested = false ∧ s1z.lss.is_valid = true ∧
    (Lssdp.stats inst0 s1z).per_flow_exp.1 = RV.nan := by
  refine ⟨rfl, by decide, ?_⟩
  have hflow : s1z.flow = [0] := by decide
  rw [Lssdp.stats_pfe]
  rw [if_pos (show s1z.lss.is_valid = true from by decide)]
  rw [hflow]
  show (calculate_stats [fdiv (([(0 : ℚ)].drop (3 * (inst0.nstops - 1))).sum)
    ([(0 : ℚ)].sum)] true).1 = RV.nan
  norm_num [fdiv, calculate_stats, listMin, inst0]

/-- C9 (amended).  Over an uncongested instance the lf entry of stats is
nan in all four components; per_flow_exp is the zero statistic when the
Service is invalid, and is a defined numeric statistic whenever the
Service is valid and the total flow is nonzero (on a valid Service with
zero total flow it degenerates to nan). -/
theorem c9_uncongested_stats (inst : LSSDPInstance) (s : Lssdp.LSSDPSolution)
    (h : inst.congested = false) :
    (Lssdp.stats inst s).lf = (RV.nan, RV.nan, RV.nan, RV.nan) ∧
    (s.lss.is_valid = false →
      (Lssdp.stats inst s).per_flow_exp = (RV.num 0, RV.num 0, RV.num 0, RV.num 0)) ∧
    (s.lss.is_valid = true → s.flow.sum ≠ 0 →
      (Lssdp.stats inst s).per_flow_exp.1 ≠ RV.nan ∧
      (Lssdp.stats inst s).per_flow_exp.2.1 ≠ RV.nan ∧
      (Lssdp.stats inst s).per_flow_exp.2.2.1 ≠ RV.nan ∧
      (Lssdp.stats inst s).per_flow_exp.2.2.2 ≠ RV.nan) := by
  refine ⟨?_, ?_, ?_⟩
  · rw [Lssdp.stats_lf]
    rw [if_neg (by simp [h])]
    rfl
  · intro hv
    rw [Lssdp.stats_pfe]
    rw [if_neg (by simp [hv])]
    simp [calculate_stats, listMin, listMean, listMax, listSum, radd]
  · intro hv hsum
    rw [Lssdp.stats_pfe]
    rw [if_pos hv]
    unfold fdiv
    rw [if_neg hsum]
    simp [calculate_stats, listMin, listMean, listMax, listSum, radd]

/-- C9 witness: inst0 is uncongested and its fresh Solution has an
invalid Service, so stats reports nan load factors and the zero
per_flow_exp statistic. -/
theorem c9_witness :
    inst0.congested = false ∧ (Lssdp.init inst0).lss.is_valid = false ∧
    (Lssdp.stats inst0 (Lssdp.init inst0)).lf = (RV.nan, RV.nan, RV.nan, RV.nan) ∧
    (Lssdp.stats inst0 (Lssdp.init inst0)).per_flow_exp =
      (RV.num 0, RV.num 0, RV.num 0, RV.num 0) :=
  ⟨rfl, by decide,
    (c9_uncongested_stats inst0 (Lssdp.init inst0) rfl).1,
    (c9_uncongested_stats inst0 (Lssdp.init inst0) rfl).2.1 (by decide)⟩
